import Mathlib

/-!
Verification of the repka repository layer (insertion pipeline with
conditional field suppression, query objects, query executors) against its
natural-language specification.

The Python source is shallowly embedded:
- a pydantic model instance becomes an `Entity`: an association list of
  field values together with the per-field declared defaults
  (`entity.__fields__[f].default`);
- SQLAlchemy tables become `Table` (column names plus a server-default flag);
- queries become transient value objects (`InsertCall`, `InsertManyCall`,
  `UpdateStmt`, `DeleteStmt`);
- `raise ValueError` becomes `Except RepkaError`; the list of statements
  issued to the backend is returned explicitly so that "no query issued"
  is observable.
-/

namespace Repka

/-- Primitive column/field values; `vNull` models Python `None`. -/
inductive Val where
| vNull
| vInt (n : Int)
| vStr (s : String)
deriving DecidableEq, Repr

/-- A pydantic model instance: current field values (including `id`) and the
declared per-field defaults taken from the model class. -/
structure Entity where
fields : List (String × Val)
defaults : List (String × Val)
deriving DecidableEq, Repr

/-- Python `getattr(entity, f)` (fields are assumed declared; missing ones
read as null). -/
def getattrF (e : Entity) (f : String) : Val :=
((e.fields.lookup f).getD Val.vNull)

/-- The declared default of field `f`: `entity.__fields__[f].default`. -/
def fieldDefault (e : Entity) (f : String) : Val :=
((e.defaults.lookup f).getD Val.vNull)

/-- repka.utils.is_field_equal_to_default:
`getattr(entity, field_name) == entity.__fields__[field_name].default`. -/
def is_field_equal_to_default (e : Entity) (f : String) : Bool :=
getattrF e f == fieldDefault e f

/-- A SQLAlchemy column: its key and whether `col.server_default` is set. -/
structure Column where
key : String
hasServerDefault : Bool
deriving DecidableEq, Repr

/-- A SQLAlchemy table definition. -/
structure Table where
name : String
cols : List Column
deriving DecidableEq, Repr

/-- Repository configuration: the bound table and the `ignore_default`
column-name list declared on the repository class. -/
structure Repo where
table : Table
ignore_default : List String
deriving DecidableEq, Repr

/-- repka.utils.model_to_primitive with without_id=True, as used by
`AsyncBaseRepo.serialize`: the field mapping minus the `id` key. -/
def serialize (e : Entity) : List (String × Val) :=
e.fields.filter (fun kv => kv.1 != "id")

/-- InsertImpl._get_ignored_fields: the ignore-default fields whose current
value equals the declared default (the "deferred" fields). -/
def _get_ignored_fields (repo : Repo) (e : Entity) : List String :=
repo.ignore_default.filter (fun f => is_field_equal_to_default e f)

/-- InsertImpl._serialize_for_insertion: serialized entity with the deferred
fields removed from the outgoing mapping. -/
def _serialize_for_insertion (repo : Repo) (e : Entity) : List (String × Val) :=
(serialize e).filter (fun kv => !((_get_ignored_fields repo e).contains kv.1))

/-- InsertImpl.insert_returning_columns: the id column followed by every
column named in `ignore_default` (regardless of the entity's values). -/
def insert_returning_columns (repo : Repo) : List String :=
"id" :: repo.ignore_default

/-- Error kinds of the layer; the Python code raises ValueError in each
case, the spec names them MissingFilterError, InconsistentDefaultsError and
UnsupportedParameterError. -/
inductive RepkaError where
| missingFilter
| inconsistentDefaults (field : String)
| unsupportedParameter
deriving DecidableEq, Repr

/-- A database row (or an SQL parameter mapping): column name to value. -/
abbrev Row := List (String × Val)

/-- An atomic SQL filter (BinaryExpression): column equality against a
literal, enough to model WHERE clauses concretely. -/
inductive Filt where
| eqCol (col : String) (v : Val)
deriving DecidableEq, Repr

/-- Evaluate an atomic filter on a row. -/
def evalFilt : Filt → Row → Bool
| Filt.eqCol c v, r => ((r.lookup c).getD Val.vNull) == v

/-- A row satisfies an AND-conjoined WHERE clause; a missing (sentinel)
entry constrains nothing. An empty clause matches every row. -/
def rowMatches (fs : List (Option Filt)) (r : Row) : Bool :=
fs.all (fun of => match of with
  | none => true
  | some fl => evalFilt fl r)

/-- The DELETE statement issued to the backend: table plus WHERE clause. -/
structure DeleteStmt where
table : Table
whereFilters : List (Option Filt)
deriving DecidableEq, Repr

/-- DeleteQuery.__call__: zero filters raise; a leading None sentinel drops
the whole WHERE clause; otherwise the filters pass through. -/
def deleteQueryCall (t : Table) (filters : List (Option Filt)) :
    Except RepkaError DeleteStmt :=
match filters with
| [] => Except.error RepkaError.missingFilter
| f0 :: rest =>
  match f0 with
  | none => Except.ok { table := t, whereFilters := [] }
  | some _ => Except.ok { table := t, whereFilters := f0 :: rest }

/-- AsyncBaseRepo.delete: build the DELETE query, then hand it to the query
executor; the first component lists the statements actually issued. -/
def delete_model (t : Table) (filters : List (Option Filt)) :
    List DeleteStmt × Except RepkaError Unit :=
match deleteQueryCall t filters with
| Except.error e => ([], Except.error e)
| Except.ok q => ([q], Except.ok ())

/-- Effect of executing a DELETE statement on the stored rows. -/
def applyDeleteStmt (q : DeleteStmt) (rows : List Row) : List Row :=
rows.filter (fun r => !(rowMatches q.whereFilters r))

/-- Python setattr on the field mapping: replace the first binding of the
key, appending when absent. -/
def setKV : List (String × Val) → String → Val → List (String × Val)
| [], f, v => [(f, v)]
| (k, w) :: rest, f, v =>
  if k = f then (f, v) :: rest else (k, w) :: setKV rest f v

/-- setattr(entity, f, v). -/
def setField (e : Entity) (f : String) (v : Val) : Entity :=
{ e with fields := setKV e.fields f v }

/-- InsertImpl._set_ignored_fields: write the returned id and every deferred
field's returned value back onto the entity. -/
def _set_ignored_fields (repo : Repo) (e : Entity) (row : Row) : Entity :=
let e1 := setField e "id" ((row.lookup "id").getD Val.vNull)
(_get_ignored_fields repo e1).foldl
  (fun acc col => setField acc col ((row.lookup col).getD Val.vNull)) e1

/-- repka.utils.mixed_zip: zip the (synchronous) entity iterator against the
(asynchronous) row iterator, stopping at whichever is exhausted first. -/
def mixed_zip {α β : Type} : List α → List β → List (α × β)
| _, [] => []
| [], _ :: _ => []
| f :: fs, s :: ss => (f, s) :: mixed_zip fs ss

/-- InsertManyImpl._updated_entities_aiter: yield each zipped entity updated
from its returned row. -/
def _updated_entities (repo : Repo) (entities : List Entity) (rows : List Row) :
    List Entity :=
(mixed_zip entities rows).map (fun p => _set_ignored_fields repo p.1 p.2)

/-- The multi-row INSERT statement issued by insert_many. -/
structure InsertManyCall where
table : Table
values : List (List (String × Val))
returning : List String
deriving DecidableEq, Repr

/-- The columns with a server_default that are also named in
ignore_default, as collected by InsertManyImpl._check_server_defaults. -/
def server_default_fields (repo : Repo) : List String :=
(repo.table.cols.filter
  (fun c => c.hasServerDefault && repo.ignore_default.contains c.key)).map Column.key

/-- All records of the batch agree with the first one on whether field f
equals its declared default. -/
def consistentOn (es : List Entity) (f : String) : Bool :=
match es with
| [] => true
| e0 :: _ =>
  es.all (fun e => is_field_equal_to_default e f == is_field_equal_to_default e0 f)

/-- InsertManyImpl._check_server_defaults: raise on the first server-default
ignore-default field on which the batch disagrees. -/
def _check_server_defaults (repo : Repo) (es : List Entity) :
    Except RepkaError Unit :=
match (server_default_fields repo).find? (fun f => !(consistentOn es f)) with
| some f => Except.error (RepkaError.inconsistentDefaults f)
| none => Except.ok ()

/-- InsertManyImpl.insert_many_aiter: empty input short-circuits; otherwise
the consistency check runs before the single multi-row INSERT is issued.
`rs` is the backend's returned row list; the first component lists the
statements actually issued. -/
def insert_many_model (repo : Repo) (es : List Entity) (rs : List Row) :
    List InsertManyCall × Except RepkaError (List Entity) :=
if es.isEmpty then ([], Except.ok [])
else
  match _check_server_defaults repo es with
  | Except.error err => ([], Except.error err)
  | Except.ok _ =>
    ([{ table := repo.table,
        values := es.map (fun e => _serialize_for_insertion repo e),
        returning := insert_returning_columns repo }],
      Except.ok (_updated_entities repo es rs))

/-- Caller-supplied backend-specific keyword parameters (sa_params). -/
abbrev SAParams := List (String × Val)

/-- databases_._check_sa_params: reject any non-empty sa_params. -/
def _check_sa_params (sa_params : SAParams) : Except RepkaError Unit :=
if sa_params.isEmpty then Except.ok ()
else Except.error RepkaError.unsupportedParameter

/-- A call sent to the databases backend, tagged by operation; `Q` is the
opaque SQLAlchemy query value. -/
inductive DbCall (Q : Type) where
| fetchOne (q : Q)
| fetchAll (q : Q)
| fetchVal (q : Q)
| insertOne (q : Q)
| insertRows (q : Q)
| updateRows (q : Q)
| deleteRows (q : Q)
deriving DecidableEq, Repr

/-- The abstract databases connection: what the backend would answer for
each query. -/
structure DbConn (Q : Type) where
oneResp : Q → Option Row
allResp : Q → List Row
valResp : Q → Val

/-- DatabasesQueryExecutor.fetch_one: check sa_params, then fetch. -/
def databases_fetch_one {Q : Type} (conn : DbConn Q) (q : Q) (ps : SAParams) :
    List (DbCall Q) × Except RepkaError (Option Row) :=
match _check_sa_params ps with
| Except.error e => ([], Except.error e)
| Except.ok _ => ([DbCall.fetchOne q], Except.ok (conn.oneResp q))

/-- DatabasesQueryExecutor.fetch_all. -/
def databases_fetch_all {Q : Type} (conn : DbConn Q) (q : Q) (ps : SAParams) :
    List (DbCall Q) × Except RepkaError (List Row) :=
match _check_sa_params ps with
| Except.error e => ([], Except.error e)
| Except.ok _ => ([DbCall.fetchAll q], Except.ok (conn.allResp q))

/-- DatabasesQueryExecutor.fetch_val. -/
def databases_fetch_val {Q : Type} (conn : DbConn Q) (q : Q) (ps : SAParams) :
    List (DbCall Q) × Except RepkaError Val :=
match _check_sa_params ps with
| Except.error e => ([], Except.error e)
| Except.ok _ => ([DbCall.fetchVal q], Except.ok (conn.valResp q))

/-- DatabasesQueryExecutor.insert (fetch_one on the INSERT..RETURNING). -/
def databases_insert {Q : Type} (conn : DbConn Q) (q : Q) (ps : SAParams) :
    List (DbCall Q) × Except RepkaError (Option Row) :=
match _check_sa_params ps with
| Except.error e => ([], Except.error e)
| Except.ok _ => ([DbCall.insertOne q], Except.ok (conn.oneResp q))

/-- DatabasesQueryExecutor.insert_many (fetch_all on the INSERT..RETURNING). -/
def databases_insert_many {Q : Type} (conn : DbConn Q) (q : Q) (ps : SAParams) :
    List (DbCall Q) × Except RepkaError (List Row) :=
match _check_sa_params ps with
| Except.error e => ([], Except.error e)
| Except.ok _ => ([DbCall.insertRows q], Except.ok (conn.allResp q))

/-- DatabasesQueryExecutor.update. -/
def databases_update {Q : Type} (conn : DbConn Q) (q : Q) (ps : SAParams) :
    List (DbCall Q) × Except RepkaError Unit :=
match _check_sa_params ps with
| Except.error e => ([], Except.error e)
| Except.ok _ => ([DbCall.updateRows q], Except.ok ())

/-- DatabasesQueryExecutor.delete. -/
def databases_delete {Q : Type} (conn : DbConn Q) (q : Q) (ps : SAParams) :
    List (DbCall Q) × Except RepkaError Unit :=
match _check_sa_params ps with
| Except.error e => ([], Except.error e)
| Except.ok _ => ([DbCall.deleteRows q], Except.ok ())

/-- The UPDATE statement issued to the backend. -/
structure UpdateStmt where
table : Table
values : List (String × Val)
filters : List Filt
deriving DecidableEq, Repr

/-- Apply the fold of setattr calls performed by update_partial. -/
def updAll (e : Entity) (upd : List (String × Val)) : Entity :=
upd.foldl (fun acc kv => setField acc kv.1 kv.2) e

/-- AsyncBaseRepo.update_partial: set the named fields on the in-memory
record, serialize the whole record, keep only the named keys of the
serialized mapping, and build an UPDATE filtered by the record's id. -/
def update_partial_model (repo : Repo) (e : Entity) (upd : List (String × Val)) :
    Entity × UpdateStmt :=
let e2 := updAll e upd
let serialized := serialize e2
(e2,
  { table := repo.table,
    values := upd.map (fun kv => (kv.1, (serialized.lookup kv.1).getD Val.vNull)),
    filters := [Filt.eqCol "id" (getattrF e2 "id")] })

/-- Effect of executing an UPDATE's SET clause on one stored row: named
columns take the new value, all other columns are untouched. -/
def applyUpdateRow (vals : List (String × Val)) (r : Row) : Row :=
r.map (fun kv =>
  match vals.lookup kv.1 with
  | some v => (kv.1, v)
  | none => kv)

/-- The declared fields and defaults of the record class (the generic model
type), used by AsyncBaseRepo.deserialize. -/
structure Schema where
fieldsDefaults : List (String × Val)
deriving DecidableEq, Repr

/-- AsyncBaseRepo.deserialize: build a record from kwargs, declared fields
missing from the kwargs falling back to their defaults. -/
def deserializeE (sch : Schema) (kwargs : List (String × Val)) : Entity :=
{ fields := sch.fieldsDefaults.map (fun kv => (kv.1, (kwargs.lookup kv.1).getD kv.2)),
  defaults := sch.fieldsDefaults }

/-- AsyncBaseRepo.first over a stored table: the first row matching the
AND-conjoined filters. -/
def firstMatch (store : List Row) (filters : List Filt) : Option Row :=
store.find? (fun r => filters.all (fun fl => evalFilt fl r))

/-- The single-row INSERT statement issued to the backend. -/
structure InsertCall where
table : Table
values : List (String × Val)
returning : List String
deriving DecidableEq, Repr

/-- InsertImpl.insert: issue the trimmed INSERT and back-fill the entity
from the returned row `respRow`. -/
def insert_model (repo : Repo) (e : Entity) (respRow : Row) :
    Entity × InsertCall :=
(_set_ignored_fields repo e respRow,
  { table := repo.table,
    values := _serialize_for_insertion repo e,
    returning := insert_returning_columns repo })

/-- AsyncBaseRepo.get_or_create: return the first match with created=false,
or deserialize the defaults, insert, and return created=true. The second
component lists the INSERT statements issued. -/
def get_or_create_model (repo : Repo) (sch : Schema) (filters : List Filt)
    (store : List Row) (defaults : List (String × Val)) (respRow : Row) :
    (Entity × Bool) × List InsertCall :=
match firstMatch store filters with
| some row => ((deserializeE sch row, false), [])
| none =>
  let e := deserializeE sch defaults
  let r := insert_model repo e respRow
  ((r.1, true), [r.2])

/-! Concrete inputs used by counterexamples and witnesses. -/

/-- Concrete repository used to witness the C1 theorem: one ignore-default
column x with declared default 5. -/
def repoW1 : Repo :=
{ table := { name := "t", cols := [⟨"id", false⟩, ⟨"x", true⟩] },
  ignore_default := ["x"] }

/-- Concrete entity used to witness the C1 theorem: x explicitly set to 60
while the declared default is 5. -/
def entW1 : Entity :=
{ fields := [("id", Val.vNull), ("x", Val.vInt 60)],
  defaults := [("id", Val.vNull), ("x", Val.vInt 5)] }

/-- Concrete repository for claim C3: one ignore-default column x. -/
def repoC3 : Repo :=
{ table := { name := "t", cols := [⟨"id", false⟩, ⟨"x", true⟩] },
  ignore_default := ["x"] }

/-- Concrete entity for the C3 counterexample: x explicitly 1 while the
declared default is 0, so x is not deferred. -/
def entC3 : Entity :=
{ fields := [("id", Val.vNull), ("x", Val.vInt 1)],
  defaults := [("id", Val.vNull), ("x", Val.vInt 0)] }

/-- Concrete entity whose x is left at its declared default 0 (deferred). -/
def entC3w : Entity :=
{ fields := [("id", Val.vNull), ("x", Val.vInt 0)],
  defaults := [("id", Val.vNull), ("x", Val.vInt 0)] }

/-- Concrete repository for claim C2: column x has a server default and is
in ignore_default. -/
def repoC2 : Repo :=
{ table := { name := "t", cols := [⟨"id", false⟩, ⟨"x", true⟩] },
  ignore_default := ["x"] }

/-- Batch member with x left at its declared default 0. -/
def entC2a : Entity :=
{ fields := [("id", Val.vNull), ("x", Val.vInt 0)],
  defaults := [("id", Val.vNull), ("x", Val.vInt 0)] }

/-- Batch member with x explicitly 1 (differs from the declared default). -/
def entC2b : Entity :=
{ fields := [("id", Val.vNull), ("x", Val.vInt 1)],
  defaults := [("id", Val.vNull), ("x", Val.vInt 0)] }

/-- Concrete repository for the C8 witness: no ignore-default columns. -/
def repoW8 : Repo :=
{ table := { name := "t", cols := [⟨"id", false⟩, ⟨"x", false⟩, ⟨"y", false⟩] },
  ignore_default := [] }

/-- Concrete entity for the C8 witness: id 1, x 0, y 2. -/
def entW8 : Entity :=
{ fields := [("id", Val.vInt 1), ("x", Val.vInt 0), ("y", Val.vInt 2)],
  defaults := [("id", Val.vNull), ("x", Val.vInt 0), ("y", Val.vInt 0)] }

/-- Concrete schema for the C9 witness: fields id (default null) and x
(default 3). -/
def schW9 : Schema :=
{ fieldsDefaults := [("id", Val.vNull), ("x", Val.vInt 3)] }

/-- Concrete repository for the C9 witness. -/
def repoW9 : Repo :=
{ table := { name := "t", cols := [⟨"id", false⟩, ⟨"x", false⟩] },
  ignore_default := [] }

/-! Helper lemmas about association-list lookup under key-determined
filtering. -/

/-- Lookup under a filter whose predicate depends only on the key. -/
theorem lookup_filter_key (l : List (String × Val)) (p : String → Bool) (f : String) :
    (l.filter (fun kv => p kv.1)).lookup f = if p f then l.lookup f else none := by
  induction l with
  | nil => simp
  | cons kv rest ih =>
    rcases kv with ⟨k, v⟩
    rw [List.filter_cons]
    by_cases hk : f = k
    · subst hk
      by_cases hp : p f
      · simp [hp, List.lookup]
      · simp [hp, ih]
    · by_cases hp : p k
      · simp [hp, List.lookup, beq_false_of_ne hk, ih]
      · simp [hp, ih, List.lookup, beq_false_of_ne hk]

/-- Membership in the deferred-field list. -/
theorem mem_get_ignored_fields (repo : Repo) (e : Entity) (f : String) :
    f ∈ _get_ignored_fields repo e ↔
      f ∈ repo.ignore_default ∧ is_field_equal_to_default e f = true := by
  simp [_get_ignored_fields, List.mem_filter]

/-- Claim C1: for every field named in the repository's ignore-default set
(a well-formed configuration: the identifier is not in that set, and the
field is declared on the record), the single-insert payload built by
InsertImpl._serialize_for_insertion omits the field iff the record's current
value equals the field's declared default; when the value differs from the
default it is sent through unchanged. -/
theorem insert_payload_omits_iff_default (repo : Repo) (e : Entity) (f : String)
    (hf : f ∈ repo.ignore_default)
    (hid : "id" ∉ repo.ignore_default)
    (hdecl : (e.fields.lookup f).isSome) :
    ((_serialize_for_insertion repo e).lookup f = none ↔
      is_field_equal_to_default e f = true) ∧
    (is_field_equal_to_default e f = false →
      (_serialize_for_insertion repo e).lookup f = e.fields.lookup f) := by
  have hfid : f ≠ "id" := by
    intro h
    exact hid (h ▸ hf)
  have hser : (serialize e).lookup f = e.fields.lookup f := by
    have := lookup_filter_key e.fields (fun k => k != "id") f
    simpa [serialize, hfid] using this
  have hchar : (_serialize_for_insertion repo e).lookup f =
      if is_field_equal_to_default e f then none else e.fields.lookup f := by
    have := lookup_filter_key (serialize e)
      (fun k => !((_get_ignored_fields repo e).contains k)) f
    rw [_serialize_for_insertion, this, hser]
    by_cases heq : is_field_equal_to_default e f
    · have hmem : f ∈ _get_ignored_fields repo e :=
        (mem_get_ignored_fields repo e f).mpr ⟨hf, heq⟩
      simp [heq, hmem]
    · have hnotmem : f ∉ _get_ignored_fields repo e := by
        rw [mem_get_ignored_fields]
        rintro ⟨-, h2⟩
        exact heq h2
      simp [heq, hnotmem]
  constructor
  · rw [hchar]
    by_cases heq : is_field_equal_to_default e f
    · simp [heq]
    · simp only [heq, if_false, Bool.false_eq_true, iff_false]
      intro hnone
      rw [hnone] at hdecl
      simp at hdecl
  · intro hne
    rw [hchar, hne]
    simp

/-- Witness for C1: at the concrete repository and entity above, the field x
(value 60, default 5) is kept in the payload unchanged. -/
theorem insert_payload_omits_iff_default_witness :
    (((_serialize_for_insertion repoW1 entW1).lookup "x" = none ↔
        is_field_equal_to_default entW1 "x" = true) ∧
      (is_field_equal_to_default entW1 "x" = false →
        (_serialize_for_insertion repoW1 entW1).lookup "x" = entW1.fields.lookup "x")) :=
  insert_payload_omits_iff_default repoW1 entW1 "x" (by decide) (by decide) (by decide)

/-- Claim C3 counterexample: at a concrete repository (ignore_default =
[x]) and an entity whose x differs from its declared default (so x is not
deferred), the returning-column list still contains x, refuting that it
consists of the identifier column plus exactly the deferred fields'
columns. -/
theorem returning_columns_not_only_deferred :
    "x" ∈ insert_returning_columns repoC3 ∧
      ¬ ("x" = "id" ∨ "x" ∈ _get_ignored_fields repoC3 entC3) := by
  decide

/-- Claim C3 as amended: for every single insert, the returning-column list
equals the identifier column plus all ignore-default columns, whether the
entity's value is deferred or not; in particular every deferred field's
column is requested back. -/
theorem returning_columns_id_and_all_ignore_default (repo : Repo) (e : Entity) :
    (∀ c, c ∈ insert_returning_columns repo ↔ (c = "id" ∨ c ∈ repo.ignore_default)) ∧
    (∀ f, f ∈ _get_ignored_fields repo e → f ∈ insert_returning_columns repo) := by
  constructor
  · intro c
    simp [insert_returning_columns]
  · intro f hf
    rcases (mem_get_ignored_fields repo e f).mp hf with ⟨h1, -⟩
    simp [insert_returning_columns, h1]

/-- Witness for the amended C3: at the concrete repository, the deferred
field x of the all-default entity is in the returning-column list. -/
theorem returning_columns_id_and_all_ignore_default_witness :
    "x" ∈ insert_returning_columns repoC3 :=
  (returning_columns_id_and_all_ignore_default repoC3 entC3w).2 "x" (by decide)

/-- Claim C4: delete with zero filters raises MissingFilterError and issues
no statement; delete with the single match-all sentinel (None) produces a
DELETE with no WHERE clause, which removes every stored row. -/
theorem delete_zero_filters_guard_and_sentinel (t : Table) (rows : List Row) :
    delete_model t [] = ([], Except.error RepkaError.missingFilter) ∧
    delete_model t [none] = ([{ table := t, whereFilters := [] }], Except.ok ()) ∧
    applyDeleteStmt { table := t, whereFilters := [] } rows = [] := by
  refine ⟨rfl, rfl, ?_⟩
  simp [applyDeleteStmt, rowMatches]

/-- Claim C10: when the first filter is the None sentinel, every further
filter is discarded: the DELETE has an empty WHERE clause whatever `rest`
holds, and executing it removes every stored row (not only those matching
the extra filters). -/
theorem delete_sentinel_first_discards_rest (t : Table)
    (rest : List (Option Filt)) (rows : List Row) :
    delete_model t (none :: rest) =
      ([{ table := t, whereFilters := [] }], Except.ok ()) ∧
    applyDeleteStmt { table := t, whereFilters := [] } rows = [] := by
  refine ⟨rfl, ?_⟩
  simp [applyDeleteStmt, rowMatches]

/-- mixed_zip is positional zip truncated at the shorter input. -/
theorem mixed_zip_eq_zip {α β : Type} (xs : List α) (ys : List β) :
    mixed_zip xs ys = xs.zip ys := by
  induction xs generalizing ys with
  | nil => cases ys <;> simp [mixed_zip]
  | cons x xs ih => cases ys <;> simp [mixed_zip, ih]

/-- Claim C5: when the backend returns fewer (or more) rows than records,
the zip stops at the shorter sequence: exactly min(records, rows) entities
are updated and yielded, in input order, pairing the i-th record with the
i-th returned row; no error is raised. -/
theorem insert_many_zip_stops_at_shorter (repo : Repo) (es : List Entity)
    (rs : List Row) :
    ((_updated_entities repo es rs).length = min es.length rs.length) ∧
    (∀ i : Nat, (_updated_entities repo es rs)[i]? =
      match es[i]?, rs[i]? with
      | some e, some r => some (_set_ignored_fields repo e r)
      | some _, none => none
      | none, _ => none) := by
  constructor
  · simp [_updated_entities, mixed_zip_eq_zip]
  · intro i
    rw [_updated_entities, mixed_zip_eq_zip]
    induction es generalizing rs i with
    | nil => cases rs <;> simp
    | cons e es ih =>
      cases rs with
      | nil =>
        cases h : (e :: es)[i]? <;> simp [h]
      | cons r rs =>
        cases i with
        | zero => simp
        | succ j => simpa using ih rs j

/-- Claim C6: insert_many on the empty batch returns the empty result and
issues no statement at all (neither the consistency check's failure nor an
INSERT can be observed). -/
theorem insert_many_empty_noop (repo : Repo) (rs : List Row) :
    insert_many_model repo [] rs = ([], Except.ok []) := rfl

/-- The consistency predicate of _check_server_defaults holds exactly when
all pairs of batch members agree on default-equality of the field. -/
theorem consistentOn_eq_true_iff (es : List Entity) (f : String) :
    consistentOn es f = true ↔
      ∀ e1 ∈ es, ∀ e2 ∈ es,
        is_field_equal_to_default e1 f = is_field_equal_to_default e2 f := by
  cases es with
  | nil => simp [consistentOn]
  | cons e0 tl =>
    simp only [consistentOn, List.all_eq_true, beq_iff_eq]
    constructor
    · intro h e1 he1 e2 he2
      rw [h e1 he1, h e2 he2]
    · intro h e he
      exact h e he e0 (by simp)

/-- Claim C2: on a non-empty batch, if some server-default ignore-default
field has mixed default-equality across the batch, insert_many fails with
InconsistentDefaultsError and issues zero statements; if the batch agrees
on every such field, the check raises no error. -/
theorem insert_many_mixed_batch_fails (repo : Repo) (es : List Entity)
    (rs : List Row) (hne : es ≠ []) :
    ((∃ f ∈ server_default_fields repo, ∃ e1 ∈ es, ∃ e2 ∈ es,
        is_field_equal_to_default e1 f ≠ is_field_equal_to_default e2 f) →
      (insert_many_model repo es rs).1 = [] ∧
        ∃ f, (insert_many_model repo es rs).2 =
          Except.error (RepkaError.inconsistentDefaults f)) ∧
    ((∀ f ∈ server_default_fields repo, ∀ e1 ∈ es, ∀ e2 ∈ es,
        is_field_equal_to_default e1 f = is_field_equal_to_default e2 f) →
      ∃ ents, (insert_many_model repo es rs).2 = Except.ok ents) := by
  have hemp : es.isEmpty = false := by
    cases es with
    | nil => exact absurd rfl hne
    | cons a l => rfl
  constructor
  · rintro ⟨f, hf, e1, he1, e2, he2, hne12⟩
    have hcf : (!(consistentOn es f)) = true := by
      rw [Bool.not_eq_true']
      rw [Bool.eq_false_iff]
      intro hc
      exact hne12 ((consistentOn_eq_true_iff es f).mp hc e1 he1 e2 he2)
    have hfind : ((server_default_fields repo).find?
        (fun g => !(consistentOn es g))).isSome := by
      rcases h : (server_default_fields repo).find? (fun g => !(consistentOn es g)) with _ | g
      · rw [List.find?_eq_none] at h
        exact absurd hcf (by simpa using h f hf)
      · rfl
    rcases Option.isSome_iff_exists.mp hfind with ⟨g, hg⟩
    refine ⟨?_, g, ?_⟩ <;>
      simp [insert_many_model, hemp, _check_server_defaults, hg]
  · intro hall
    have hfind : (server_default_fields repo).find?
        (fun g => !(consistentOn es g)) = none := by
      rw [List.find?_eq_none]
      intro g hgmem
      simp only [Bool.not_eq_true', Bool.not_eq_false]
      exact (consistentOn_eq_true_iff es g).mpr (hall g hgmem)
    exact ⟨_updated_entities repo es rs,
      by simp [insert_many_model, hemp, _check_server_defaults, hfind]⟩

/-- Witness for C2: the concrete mixed batch (x left at default vs x
explicitly 1) fails with InconsistentDefaultsError and issues no statement. -/
theorem insert_many_mixed_batch_fails_witness :
    (insert_many_model repoC2 [entC2a, entC2b] []).1 = [] ∧
      ∃ f, (insert_many_model repoC2 [entC2a, entC2b] []).2 =
        Except.error (RepkaError.inconsistentDefaults f) :=
  (insert_many_mixed_batch_fails repoC2 [entC2a, entC2b] [] (by simp)).1
    ⟨"x", by decide, entC2a, by simp, entC2b, by simp, by decide⟩

/-- Claim C7: every databases-backend executor operation rejects a
non-empty sa_params mapping with UnsupportedParameterError before sending
anything to the backend, and with empty sa_params performs exactly its one
backend call with no error. -/
theorem databases_executor_rejects_sa_params (Q : Type) (conn : DbConn Q)
    (q : Q) (ps : SAParams) :
    (ps ≠ [] →
      databases_fetch_one conn q ps = ([], Except.error RepkaError.unsupportedParameter) ∧
      databases_fetch_all conn q ps = ([], Except.error RepkaError.unsupportedParameter) ∧
      databases_fetch_val conn q ps = ([], Except.error RepkaError.unsupportedParameter) ∧
      databases_insert conn q ps = ([], Except.error RepkaError.unsupportedParameter) ∧
      databases_insert_many conn q ps = ([], Except.error RepkaError.unsupportedParameter) ∧
      databases_update conn q ps = ([], Except.error RepkaError.unsupportedParameter) ∧
      databases_delete conn q ps = ([], Except.error RepkaError.unsupportedParameter)) ∧
    (ps = [] →
      databases_fetch_one conn q ps = ([DbCall.fetchOne q], Except.ok (conn.oneResp q)) ∧
      databases_fetch_all conn q ps = ([DbCall.fetchAll q], Except.ok (conn.allResp q)) ∧
      databases_fetch_val conn q ps = ([DbCall.fetchVal q], Except.ok (conn.valResp q)) ∧
      databases_insert conn q ps = ([DbCall.insertOne q], Except.ok (conn.oneResp q)) ∧
      databases_insert_many conn q ps = ([DbCall.insertRows q], Except.ok (conn.allResp q)) ∧
      databases_update conn q ps = ([DbCall.updateRows q], Except.ok ()) ∧
      databases_delete conn q ps = ([DbCall.deleteRows q], Except.ok ())) := by
  constructor
  · intro hne
    have hemp : ps.isEmpty = false := by
      cases ps with
      | nil => exact absurd rfl hne
      | cons a l => rfl
    refine ⟨?_, ?_, ?_, ?_, ?_, ?_, ?_⟩ <;>
      simp [databases_fetch_one, databases_fetch_all, databases_fetch_val,
        databases_insert, databases_insert_many, databases_update,
        databases_delete, _check_sa_params, hemp]
  · intro hnil
    subst hnil
    refine ⟨rfl, rfl, rfl, rfl, rfl, rfl, rfl⟩

/-- Witness for C7: a concrete non-empty sa_params mapping is rejected by
fetch_one with no backend call. -/
theorem databases_executor_rejects_sa_params_witness :
    databases_fetch_one
        (⟨fun _ => none, fun _ => [], fun _ => Val.vNull⟩ : DbConn Unit) ()
        [("timeout", Val.vInt 1)] =
      ([], Except.error RepkaError.unsupportedParameter) :=
  ((databases_executor_rejects_sa_params Unit
      ⟨fun _ => none, fun _ => [], fun _ => Val.vNull⟩ ()
      [("timeout", Val.vInt 1)]).1 (by simp)).1

/-- Looking up the freshly set key yields the new value. -/
theorem lookup_setKV_self (l : List (String × Val)) (f : String) (v : Val) :
    (setKV l f v).lookup f = some v := by
  induction l with
  | nil => simp [setKV, List.lookup]
  | cons kv rest ih =>
    rcases kv with ⟨k, w⟩
    by_cases hk : k = f
    · simp [setKV, hk, List.lookup]
    · simp [setKV, hk, List.lookup, beq_false_of_ne (fun h => hk h.symm), ih]

/-- Setting one key leaves lookups of every other key unchanged. -/
theorem lookup_setKV_ne (l : List (String × Val)) (f g : String) (v : Val)
    (hgf : g ≠ f) :
    (setKV l f v).lookup g = l.lookup g := by
  induction l with
  | nil => simp [setKV, List.lookup, beq_false_of_ne hgf]
  | cons kv rest ih =>
    rcases kv with ⟨k, w⟩
    by_cases hk : k = f
    · subst hk
      simp [setKV, List.lookup, beq_false_of_ne hgf]
    · simp only [setKV, if_neg hk]
      by_cases hgk : g = k
      · subst hgk
        simp [List.lookup]
      · simp [List.lookup, beq_false_of_ne hgk, ih]

/-- A key absent from the association list looks up to none. -/
theorem lookup_none_of_not_mem_keys (l : List (String × Val)) (f : String)
    (h : f ∉ l.map Prod.fst) :
    l.lookup f = none := by
  induction l with
  | nil => rfl
  | cons kv rest ih =>
    rcases kv with ⟨k, w⟩
    simp only [List.map_cons, List.mem_cons] at h
    push_neg at h
    simp [List.lookup, beq_false_of_ne h.1, ih h.2]

/-- With nodup keys, lookup finds the value of any member pair. -/
theorem lookup_eq_of_mem_nodup (l : List (String × Val)) (k : String) (v : Val)
    (hnod : (l.map Prod.fst).Nodup) (hmem : (k, v) ∈ l) :
    l.lookup k = some v := by
  induction l with
  | nil => simp at hmem
  | cons kv rest ih =>
    rcases kv with ⟨k0, v0⟩
    simp only [List.map_cons, List.nodup_cons] at hnod
    rcases List.mem_cons.mp hmem with heq | htl
    · rcases Prod.mk.injEq .. ▸ heq with ⟨h1, h2⟩
      subst h1
      subst h2
      simp [List.lookup]
    · have hk : k ≠ k0 := by
        intro h
        subst h
        exact hnod.1 (List.mem_map.mpr ⟨(k, v), htl, rfl⟩)
      simp [List.lookup, beq_false_of_ne hk, ih hnod.2 htl]

/-- The setattr fold leaves fields outside the named keys unchanged. -/
theorem lookup_updAll_not_mem (e : Entity) (upd : List (String × Val))
    (f : String) (h : f ∉ upd.map Prod.fst) :
    (updAll e upd).fields.lookup f = e.fields.lookup f := by
  induction upd generalizing e with
  | nil => rfl
  | cons kv rest ih =>
    rcases kv with ⟨k, v⟩
    simp only [List.map_cons, List.mem_cons] at h
    push_neg at h
    rw [updAll, List.foldl_cons]
    rw [show List.foldl (fun acc kv => setField acc kv.1 kv.2) (setField e k v) rest
        = updAll (setField e k v) rest from rfl]
    rw [ih (setField e k v) h.2]
    exact lookup_setKV_ne e.fields k f v h.1

/-- With nodup keys, the setattr fold sets every named field to its value. -/
theorem lookup_updAll_mem (e : Entity) (upd : List (String × Val))
    (k : String) (v : Val)
    (hnod : (upd.map Prod.fst).Nodup) (hmem : (k, v) ∈ upd) :
    (updAll e upd).fields.lookup k = some v := by
  induction upd generalizing e with
  | nil => simp at hmem
  | cons kv rest ih =>
    rcases kv with ⟨k0, v0⟩
    simp only [List.map_cons, List.nodup_cons] at hnod
    rw [updAll, List.foldl_cons]
    rw [show List.foldl (fun acc kv => setField acc kv.1 kv.2) (setField e k0 v0) rest
        = updAll (setField e k0 v0) rest from rfl]
    rcases List.mem_cons.mp hmem with heq | htl
    · rcases Prod.mk.injEq .. ▸ heq with ⟨h1, h2⟩
      subst h1
      subst h2
      rw [lookup_updAll_not_mem _ _ _ hnod.1]
      exact lookup_setKV_self e.fields k v
    · exact ih (setField e k0 v0) hnod.2 htl

/-- Mapping each pair to a key-determined replacement commutes with lookup. -/
theorem lookup_map_keyfun (upd : List (String × Val)) (g : String → Val)
    (k : String) :
    (upd.map (fun kv => (kv.1, g kv.1))).lookup k
      = (upd.lookup k).map (fun _ => g k) := by
  induction upd with
  | nil => rfl
  | cons kv rest ih =>
    rcases kv with ⟨k0, v0⟩
    by_cases hk : k = k0
    · subst hk
      simp [List.lookup]
    · simp [List.lookup, beq_false_of_ne hk, ih]

/-- An UPDATE SET clause leaves every column it does not name unchanged. -/
theorem lookup_applyUpdateRow_not_mem (vals : List (String × Val)) (r : Row)
    (f : String) (h : f ∉ vals.map Prod.fst) :
    (applyUpdateRow vals r).lookup f = r.lookup f := by
  have hv : vals.lookup f = none := lookup_none_of_not_mem_keys vals f h
  induction r with
  | nil => rfl
  | cons kv rest ih =>
    rcases kv with ⟨k, w⟩
    by_cases hk : f = k
    · subst hk
      simp [applyUpdateRow, List.lookup, hv]
    · cases hvk : vals.lookup k <;>
        simp [applyUpdateRow, List.lookup, hvk, beq_false_of_ne hk] <;>
        simpa [applyUpdateRow] using ih

/-- Claim C8: update_partial on a record with non-null identifier sets
exactly the named fields to the given values on the in-memory record
(others unchanged), and the UPDATE statement carries exactly the named
fields' serialized values, filtered by the record's identifier, so that
applying its SET clause leaves every stored column not named in the call
unchanged. -/
theorem update_partial_named_fields_only (repo : Repo) (e : Entity)
    (upd : List (String × Val))
    (hid : getattrF e "id" ≠ Val.vNull)
    (hnod : (upd.map Prod.fst).Nodup)
    (hidk : "id" ∉ upd.map Prod.fst) :
    (∀ k v, (k, v) ∈ upd →
      getattrF (update_partial_model repo e upd).1 k = v) ∧
    (∀ f, f ∉ upd.map Prod.fst →
      getattrF (update_partial_model repo e upd).1 f = getattrF e f) ∧
    ((update_partial_model repo e upd).2.values.map Prod.fst = upd.map Prod.fst) ∧
    (∀ k v, (k, v) ∈ upd →
      (update_partial_model repo e upd).2.values.lookup k = some v) ∧
    ((update_partial_model repo e upd).2.filters =
      [Filt.eqCol "id" (getattrF e "id")]) ∧
    (∀ (r : Row) (f : String), f ∉ upd.map Prod.fst →
      (applyUpdateRow (update_partial_model repo e upd).2.values r).lookup f =
        r.lookup f) := by
  have h1 : (update_partial_model repo e upd).1 = updAll e upd := rfl
  have hvals : (update_partial_model repo e upd).2.values =
      upd.map (fun kv =>
        (kv.1, ((serialize (updAll e upd)).lookup kv.1).getD Val.vNull)) := rfl
  have hkeys : (update_partial_model repo e upd).2.values.map Prod.fst =
      upd.map Prod.fst := by
    rw [hvals, List.map_map]
    rfl
  have hserlook : ∀ k, k ≠ "id" →
      (serialize (updAll e upd)).lookup k = (updAll e upd).fields.lookup k := by
    intro k hk
    have := lookup_filter_key (updAll e upd).fields (fun g => g != "id") k
    simpa [serialize, hk] using this
  refine ⟨?_, ?_, hkeys, ?_, ?_, ?_⟩
  · intro k v hkv
    rw [h1, getattrF, lookup_updAll_mem e upd k v hnod hkv]
    rfl
  · intro f hf
    rw [h1, getattrF, getattrF, lookup_updAll_not_mem e upd f hf]
  · intro k v hkv
    have hkmem : k ∈ upd.map Prod.fst := List.mem_map.mpr ⟨(k, v), hkv, rfl⟩
    have hkid : k ≠ "id" := by
      intro h
      exact hidk (h ▸ hkmem)
    rw [hvals, lookup_map_keyfun upd
      (fun g => ((serialize (updAll e upd)).lookup g).getD Val.vNull) k]
    rw [lookup_eq_of_mem_nodup upd k v hnod hkv]
    rw [Option.map_some']
    rw [hserlook k hkid, lookup_updAll_mem e upd k v hnod hkv]
    rfl
  · have hidsame : getattrF (updAll e upd) "id" = getattrF e "id" := by
      rw [getattrF, getattrF, lookup_updAll_not_mem e upd "id" hidk]
    show UpdateStmt.filters
        { table := repo.table,
          values := upd.map (fun kv =>
            (kv.1, ((serialize (updAll e upd)).lookup kv.1).getD Val.vNull)),
          filters := [Filt.eqCol "id" (getattrF (updAll e upd) "id")] } =
      [Filt.eqCol "id" (getattrF e "id")]
    rw [hidsame]
  · intro r f hf
    have hf2 : f ∉ (update_partial_model repo e upd).2.values.map Prod.fst := by
      rw [hkeys]
      exact hf
    exact lookup_applyUpdateRow_not_mem _ r f hf2

/-- Witness for C8: at the concrete record (id 1, x 0, y 2),
update_partial setting x to 7 yields x = 7 on the in-memory record. -/
theorem update_partial_named_fields_only_witness :
    getattrF (update_partial_model repoW8 entW8 [("x", Val.vInt 7)]).1 "x" =
      Val.vInt 7 :=
  (update_partial_named_fields_only repoW8 entW8 [("x", Val.vInt 7)]
    (by decide) (by decide) (by decide)).1 "x" (Val.vInt 7) (by decide)

/-- Claim C9: get_or_create returns the first record matching the filters
with created = false and issues no INSERT when a match exists; otherwise it
deserializes the defaults into a new record, issues exactly one INSERT for
it, and returns it (with back-filled fields) with created = true. -/
theorem get_or_create_found_or_creates (repo : Repo) (sch : Schema)
    (filters : List Filt) (store : List Row)
    (defaults : List (String × Val)) (respRow : Row) :
    (∀ row, firstMatch store filters = some row →
      row ∈ store ∧ (filters.all (fun fl => evalFilt fl row)) = true ∧
      get_or_create_model repo sch filters store defaults respRow =
        ((deserializeE sch row, false), [])) ∧
    (firstMatch store filters = none →
      get_or_create_model repo sch filters store defaults respRow =
        ((_set_ignored_fields repo (deserializeE sch defaults) respRow, true),
          [{ table := repo.table,
             values := _serialize_for_insertion repo (deserializeE sch defaults),
             returning := insert_returning_columns repo }])) := by
  constructor
  · intro row hrow
    have hfind : store.find? (fun r => filters.all (fun fl => evalFilt fl r))
        = some row := hrow
    have hp := List.find?_some hfind
    refine ⟨List.mem_of_find?_eq_some hfind, by simpa using hp, ?_⟩
    simp [get_or_create_model, hrow]
  · intro hnone
    simp [get_or_create_model, hnone, insert_model]

/-- Witness for C9: on an empty store, get_or_create with defaults x = 3
creates: it returns created = true and issues exactly one INSERT built from
the deserialized defaults. -/
theorem get_or_create_found_or_creates_witness :
    get_or_create_model repoW9 schW9 [] [] [("x", Val.vInt 3)]
        [("id", Val.vInt 1)] =
      ((_set_ignored_fields repoW9 (deserializeE schW9 [("x", Val.vInt 3)])
          [("id", Val.vInt 1)], true),
        [{ table := repoW9.table,
           values := _serialize_for_insertion repoW9
             (deserializeE schW9 [("x", Val.vInt 3)]),
           returning := insert_returning_columns repoW9 }]) :=
  (get_or_create_found_or_creates repoW9 schW9 [] [] [("x", Val.vInt 3)]
    [("id", Val.vInt 1)]).2 rfl

end Repka
